import Mathlib

/-!
Verification of the AHP site-suitability core (app.py / app2.py).

Shallow embedding conventions:
* Python floats are modelled as rationals (`ℚ`); the float literals of the
  source (0.693, 1.7, ...) are carried over as exact decimal rationals.
* `Optional[float]` becomes `Option ℚ`; Python `None` is `none`.
* The fixed criterion / sub-criterion string keys of the source become the
  finite inductive types `Crit` and `SubCrit`; Python dicts keyed by them become
  total functions.
* External library calls (`requests`, `float(...)`, `str.strip()`, the
  trigonometric haversine) are uninterpreted parameters of the embedding:
  the theorems quantify over their behaviour.
-/

/-- The three main criteria of `AHPModel.criteria` (app.py line 60). -/
inductive Crit where
  | Technical
  | Environmental
  | Social
deriving DecidableEq, Repr

/-- The ten sub-criteria of `AHPModel.sub_criteria` (app.py lines 61-65). -/
inductive SubCrit where
  | SolarRadiation
  | Slope
  | ProximityToGrid
  | LandCost
  | LandUse
  | DistanceFromProtectedAreas
  | WaterBodyBuffer
  | DistanceFromRoads
  | ProximityToDemandCenters
  | PopulationDensity
deriving DecidableEq, Repr

/-- `self.criteria` (app.py line 60): the iteration order of the main loop. -/
def criteria : List Crit :=
  [Crit.Technical, Crit.Environmental, Crit.Social]

/-- `self.sub_criteria` (app.py lines 61-65): each criterion's ordered subs. -/
def sub_criteria : Crit → List SubCrit
  | Crit.Technical =>
      [SubCrit.SolarRadiation, SubCrit.Slope, SubCrit.ProximityToGrid, SubCrit.LandCost]
  | Crit.Environmental =>
      [SubCrit.LandUse, SubCrit.DistanceFromProtectedAreas, SubCrit.WaterBodyBuffer]
  | Crit.Social =>
      [SubCrit.DistanceFromRoads, SubCrit.ProximityToDemandCenters, SubCrit.PopulationDensity]

/-- The ten (criterion, sub-criterion) pairs in the iteration order of the
nested loops of `AHPModel.score`. -/
def subPairs : List (Crit × SubCrit) :=
  [(Crit.Technical, SubCrit.SolarRadiation), (Crit.Technical, SubCrit.Slope),
   (Crit.Technical, SubCrit.ProximityToGrid), (Crit.Technical, SubCrit.LandCost),
   (Crit.Environmental, SubCrit.LandUse),
   (Crit.Environmental, SubCrit.DistanceFromProtectedAreas),
   (Crit.Environmental, SubCrit.WaterBodyBuffer),
   (Crit.Social, SubCrit.DistanceFromRoads),
   (Crit.Social, SubCrit.ProximityToDemandCenters),
   (Crit.Social, SubCrit.PopulationDensity)]

/-- Default main weights `self.main_weights` (app.py line 66). -/
def initMain : Crit → ℚ
  | Crit.Technical => 0.693
  | Crit.Environmental => 0.187
  | Crit.Social => 0.080

/-- Default local weights `self.sub_weights_local` (app.py lines 67-71).
The Python nested dict holds only each criterion's own sub-keys; the total
function returns 0 on the (never read) off-hierarchy pairs. -/
def initLocal : Crit → SubCrit → ℚ
  | Crit.Technical, SubCrit.SolarRadiation => 0.558
  | Crit.Technical, SubCrit.Slope => 0.262
  | Crit.Technical, SubCrit.ProximityToGrid => 0.130
  | Crit.Technical, SubCrit.LandCost => 0.050
  | Crit.Environmental, SubCrit.LandUse => 0.258
  | Crit.Environmental, SubCrit.DistanceFromProtectedAreas => 0.637
  | Crit.Environmental, SubCrit.WaterBodyBuffer => 0.105
  | Crit.Social, SubCrit.DistanceFromRoads => 0.637
  | Crit.Social, SubCrit.ProximityToDemandCenters => 0.258
  | Crit.Social, SubCrit.PopulationDensity => 0.105
  | _, _ => 0

/-- State of an `AHPModel` instance: the two weight dicts plus the stored
derived table `self.sub_weights_global`. -/
structure AHPModel where
  main_weights : Crit → ℚ
  sub_weights_local : Crit → SubCrit → ℚ
  sub_weights_global : Crit → SubCrit → ℚ

/-- `AHPModel._compute_global` (app.py lines 74-78): the derived global
table `g[crit][sub] = main_weights[crit] * sub_weights_local[crit][sub]`. -/
def compute_global (main : Crit → ℚ) (lw : Crit → SubCrit → ℚ) : Crit → SubCrit → ℚ :=
  fun c s => main c * lw c s

/-- `AHPModel.__init__` (app.py lines 59-72). -/
def initModel : AHPModel :=
  { main_weights := initMain
    sub_weights_local := initLocal
    sub_weights_global := compute_global initMain initLocal }

/-- `AHPModel.set_main_weight` (app.py lines 80-82): assign, then rebuild
the whole global table. -/
def set_main_weight (m : AHPModel) (c : Crit) (v : ℚ) : AHPModel :=
  { main_weights := Function.update m.main_weights c v
    sub_weights_local := m.sub_weights_local
    sub_weights_global :=
      compute_global (Function.update m.main_weights c v) m.sub_weights_local }

/-- `AHPModel.set_local_weight` (app.py lines 84-86): assign one nested
entry, then rebuild the whole global table. -/
def set_local_weight (m : AHPModel) (c : Crit) (s : SubCrit) (v : ℚ) : AHPModel :=
  { main_weights := m.main_weights
    sub_weights_local :=
      fun c' s' => if c' = c ∧ s' = s then v else m.sub_weights_local c' s'
    sub_weights_global :=
      compute_global m.main_weights
        (fun c' s' => if c' = c ∧ s' = s then v else m.sub_weights_local c' s') }

/-- `AHPModel.global_weight` (app.py lines 88-89): pure read of the stored
derived table. -/
def global_weight (m : AHPModel) (c : Crit) (s : SubCrit) : ℚ :=
  m.sub_weights_global c s

/-- The `total` accumulation of `AHPModel.score` (app.py lines 93-97):
`site_values.get(sub, 0)` then `total += v * sub_weights_global[crit][sub]`. -/
def scoreTotal (m : AHPModel) (site_values : SubCrit → Option ℚ) : ℚ :=
  criteria.foldl
    (fun acc c =>
      (sub_criteria c).foldl
        (fun acc2 s => acc2 + (site_values s).getD 0 * m.sub_weights_global c s)
        acc)
    0

/-- The `max_sum` accumulation of `AHPModel.score` (app.py lines 99-102):
`max_sum += 1.0 * sub_weights_global[crit][sub]`. -/
def scoreMaxSum (m : AHPModel) : ℚ :=
  criteria.foldl
    (fun acc c =>
      (sub_criteria c).foldl
        (fun acc2 s => acc2 + 1 * m.sub_weights_global c s)
        acc)
    0

/-- `AHPModel.score` (app.py lines 91-103): `total / max_sum if max_sum
else 0.0`; `max_sum` is truthy in Python exactly when it is nonzero. -/
def score (m : AHPModel) (site_values : SubCrit → Option ℚ) : ℚ :=
  if scoreMaxSum m = 0 then 0 else scoreTotal m site_values / scoreMaxSum m

/-- `norm_benefit` (app.py lines 225-230): `None → 0`, degenerate
calibration → 0, else `np.clip((x - min_v) / (max_v - min_v), 0.0, 1.0)`
where `np.clip(z, lo, hi) = min(max(z, lo), hi)`. -/
def norm_benefit (x : Option ℚ) (min_v max_v : ℚ) : ℚ :=
  match x with
  | none => 0
  | some x0 =>
      if max_v = min_v then 0
      else min (max ((x0 - min_v) / (max_v - min_v)) 0) 1

/-- `norm_cost` (app.py lines 234-240): `None → 0`, degenerate calibration
→ 0, else `1.0 - np.clip((x - min_v) / (max_v - min_v), 0.0, 1.0)`. -/
def norm_cost (x : Option ℚ) (min_v max_v : ℚ) : ℚ :=
  match x with
  | none => 0
  | some x0 =>
      if max_v = min_v then 0
      else 1 - min (max ((x0 - min_v) / (max_v - min_v)) 0) 1

/-- `score_to_text` (app2.py lines 118-122): fixed ordinal recommendation
bands. -/
def score_to_text (s : ℚ) : String :=
  if s ≥ 0.8 then "Highly Suitable"
  else if s ≥ 0.6 then "Moderately Suitable"
  else if s ≥ 0.4 then "Marginally Suitable"
  else "Not Suitable"

/-- The site-value merge loop body (app.py lines 399-410) for one
sub-criterion. `parse` models the Python builtin `float(mval)` (`none` when
it raises `ValueError`), and `blank` models `mval.strip() == ""`; both are
external library calls, kept as parameters of the embedding. When the
manual text is present and non-blank the parsed value is used, with 0.0 on
a parse failure; otherwise the auto-normalized value (or 0.0 when absent)
is used. -/
def mergedSiteValue (parse : String → Option ℚ) (blank : String → Bool)
    (manual : SubCrit → Option String) (auto : SubCrit → Option ℚ) (s : SubCrit) : ℚ :=
  match manual s with
  | some mval =>
      if blank mval then (auto s).getD 0
      else
        match parse mval with
        | some x => x
        | none => 0
  | none => (auto s).getD 0

/-- One element of the Overpass JSON `elements` array, as far as
`overpass_nearest_distance_km` reads it: possible `lat`/`lon` keys and a
possible `center` object (app.py lines 182-188). -/
structure OsmElement where
  elat : Option ℚ
  elon : Option ℚ
  ecenter : Option (ℚ × ℚ)

/-- Outcome of one `requests.post` round trip to Overpass: either some
raised exception (transport failure or malformed JSON), or a decoded
`elements` list (an absent `elements` key decodes as the empty list, which
is what `js.get("elements")` being falsy amounts to). -/
inductive FetchResult where
  | fail : FetchResult
  | ok : List OsmElement → FetchResult

/-- The per-element distance computation of the result loop (app.py lines
182-188): use `lat`/`lon` when both are present, else the `center`
coordinates, else skip the element (`continue`). `hav` is the
`haversine_km` function, uninterpreted because it is built from
trigonometric floats. -/
def elemDist (hav : ℚ → ℚ → ℚ → ℚ → ℚ) (lat lon : ℚ) (el : OsmElement) :
    Option ℚ :=
  match el.elat, el.elon with
  | some la, some lo => some (hav lat lon la lo)
  | _, _ =>
      match el.ecenter with
      | some c => some (hav lat lon c.1 c.2)
      | none => none

/-- The `dmin` accumulation over `js["elements"]` (app.py lines 181-189):
`dmin = d if (dmin is None or d < dmin) else dmin`. -/
def foldMin (dist : OsmElement → Option ℚ) :
    List OsmElement → Option ℚ → Option ℚ
  | [], dmin => dmin
  | el :: rest, dmin =>
      match dist el with
      | none => foldMin dist rest dmin
      | some d =>
          foldMin dist rest
            (match dmin with
             | none => some d
             | some dm => if d < dm then some d else some dm)

/-- The `while rad <= max_radius_km` loop of `overpass_nearest_distance_km`
(app.py lines 170-193), fuel-indexed so that non-termination is observable:
`none` means the loop is still running after `fuel` iterations, and
`some (res, n)` means it returned `res` after issuing `n` queries. `oracle`
maps the current radius to the outcome of the Overpass round trip for the
fixed point and category. A failure returns `(Unknown, queries so far)` at
once (the `except` branch); an empty `elements` list multiplies the radius
by 1.7 and retries; a non-empty list returns the minimum distance; when the
radius passes `max_radius_km` the loop exits and the function returns
Unknown. -/
def overpassLoop (hav : ℚ → ℚ → ℚ → ℚ → ℚ) (oracle : ℚ → FetchResult)
    (lat lon max_radius_km : ℚ) :
    ℕ → ℚ → ℕ → Option (Option ℚ × ℕ)
  | 0, _, _ => none
  | fuel + 1, rad, cnt =>
      if rad ≤ max_radius_km then
        match oracle rad with
        | FetchResult.fail => some (none, cnt + 1)
        | FetchResult.ok elems =>
            if elems.isEmpty then
              overpassLoop hav oracle lat lon max_radius_km fuel
                (rad * 1.7) (cnt + 1)
            else
              some (foldMin (elemDist hav lat lon) elems none, cnt + 1)
      else some (none, cnt)

/-- The keys of `OSM_QUERIES` (app.py lines 158-164). -/
def osmQueryKeys : List String :=
  ["roads", "power", "water", "protected", "demand"]

/-- `overpass_nearest_distance_km` (app.py lines 167-193): an unknown
category key returns `None` without querying; otherwise the expanding
radius loop runs starting from `radius_km` with zero queries issued. -/
def overpass_nearest_distance_km (hav : ℚ → ℚ → ℚ → ℚ → ℚ)
    (oracle : ℚ → FetchResult) (lat lon : ℚ) (key : String)
    (radius_km max_radius_km : ℚ) (fuel : ℕ) : Option (Option ℚ × ℕ) :=
  if key ∈ osmQueryKeys then
    overpassLoop hav oracle lat lon max_radius_km fuel radius_km 0
  else some (none, 0)

/-- C6: `norm_benefit` returns 0 on an unknown input, 0 on a degenerate
calibration `lo = hi`, and otherwise the clamped affine rescaling
`(x - lo)/(hi - lo)` cut to `[0, 1]`; in particular
`norm_benefit 5.0 3 7 = 0.5`. -/
theorem C6_norm_benefit_spec :
    (∀ lo hi : ℚ, norm_benefit none lo hi = 0) ∧
    (∀ (x : Option ℚ) (lo : ℚ), norm_benefit x lo lo = 0) ∧
    (∀ x lo hi : ℚ, lo ≠ hi →
      norm_benefit (some x) lo hi = min (max ((x - lo) / (hi - lo)) 0) 1) ∧
    norm_benefit (some 5) 3 7 = 1 / 2 := by
  refine ⟨fun lo hi => rfl, ?_, ?_, ?_⟩
  · intro x lo
    cases x <;> simp [norm_benefit]
  · intro x lo hi h
    simp [norm_benefit, Ne.symm h]
  · norm_num [norm_benefit]

/-- Witness for C6 at the spec's worked example: calibration `[3, 7]`,
raw value 5. -/
theorem C6_norm_benefit_spec_witness :
    norm_benefit (some 5) 3 7 = min (max ((5 - 3) / (7 - 3)) 0) 1 :=
  C6_norm_benefit_spec.2.2.1 5 3 7 (by norm_num)

/-- C4 as stated is false: at the Unknown input both `norm_cost` and
`norm_benefit` return 0, so `norm_cost none 0 1 = 0` while
`1 - norm_benefit none 0 1 = 1`. -/
theorem C4_counterexample :
    ¬ (norm_cost none 0 1 = 1 - norm_benefit none 0 1) := by
  norm_num [norm_cost, norm_benefit]

/-- C4 amended: the complement identity
`norm_cost x lo hi = 1 - norm_benefit x lo hi` holds for every known
(non-None) input when `lo ≠ hi`; at the Unknown input both functions
return 0 instead, so the identity does not extend to it. -/
theorem C4_cost_benefit_complement (x lo hi : ℚ) (h : lo ≠ hi) :
    norm_cost (some x) lo hi = 1 - norm_benefit (some x) lo hi ∧
    norm_cost none lo hi = 0 ∧ norm_benefit none lo hi = 0 := by
  refine ⟨?_, rfl, rfl⟩
  simp [norm_cost, norm_benefit, Ne.symm h]

/-- Witness for C4 (amended) at the spec's slope example: raw 10,
calibration `[0, 15]`. -/
theorem C4_cost_benefit_complement_witness :
    norm_cost (some 10) 0 15 = 1 - norm_benefit (some 10) 0 15 :=
  (C4_cost_benefit_complement 10 0 15 (by norm_num)).1

/-- C3 as stated is false: when the manual text is present and non-blank
but fails to parse, the merge loop stores 0.0 (app.py line 407), not the
auto-computed value. Concretely, with manual text `"abc"` (non-blank,
unparseable) and auto value 0.5, the merged value is 0, not the auto
value 0.5. -/
theorem C3_counterexample :
    mergedSiteValue (fun _ => none) (fun _ => false)
        (fun _ => some "abc") (fun _ => some (1 / 2))
        SubCrit.SolarRadiation = 0 ∧
    ¬ (mergedSiteValue (fun _ => none) (fun _ => false)
        (fun _ => some "abc") (fun _ => some (1 / 2))
        SubCrit.SolarRadiation =
      (Option.getD (some ((1 : ℚ) / 2)) 0)) := by
  constructor
  · rfl
  · norm_num [mergedSiteValue]

/-- C3 amended: a present, non-blank, parseable manual override wins; a
present, non-blank, unparseable manual override yields 0.0 regardless of
the auto value (and never raises); the auto-computed value (or 0 when
absent) is used exactly when the manual text is absent or blank. -/
theorem C3_manual_override_merge (parse : String → Option ℚ)
    (blank : String → Bool) (manual : SubCrit → Option String)
    (auto : SubCrit → Option ℚ) (s : SubCrit) :
    (∀ mval x, manual s = some mval → blank mval = false →
        parse mval = some x →
        mergedSiteValue parse blank manual auto s = x) ∧
    (∀ mval, manual s = some mval → blank mval = false →
        parse mval = none →
        mergedSiteValue parse blank manual auto s = 0) ∧
    (manual s = none →
        mergedSiteValue parse blank manual auto s = (auto s).getD 0) ∧
    (∀ mval, manual s = some mval → blank mval = true →
        mergedSiteValue parse blank manual auto s = (auto s).getD 0) := by
  refine ⟨?_, ?_, ?_, ?_⟩ <;> intros <;> simp_all [mergedSiteValue]

/-- Witness for C3 (amended): a parseable manual override `"0.75"` is
used verbatim. -/
theorem C3_manual_override_merge_witness :
    mergedSiteValue (fun _ => some (3 / 4)) (fun _ => false)
      (fun _ => some "0.75") (fun _ => none) SubCrit.SolarRadiation = 3 / 4 :=
  (C3_manual_override_merge (fun _ => some (3 / 4)) (fun _ => false)
      (fun _ => some "0.75") (fun _ => none) SubCrit.SolarRadiation).1
    "0.75" (3 / 4) rfl rfl rfl

/-- The nested-loop `total` accumulator equals the sum over the ten
(criterion, sub-criterion) pairs. -/
theorem scoreTotal_eq_sum (m : AHPModel) (v : SubCrit → Option ℚ) :
    scoreTotal m v =
      (subPairs.map
        (fun p => (v p.2).getD 0 * m.sub_weights_global p.1 p.2)).sum := by
  simp [scoreTotal, subPairs, criteria, sub_criteria]
  ring

/-- The nested-loop `max_sum` accumulator equals the sum of the ten global
weights. -/
theorem scoreMaxSum_eq_sum (m : AHPModel) :
    scoreMaxSum m =
      (subPairs.map (fun p => m.sub_weights_global p.1 p.2)).sum := by
  simp [scoreMaxSum, subPairs, criteria, sub_criteria]
  ring

/-- C1: `AHPModel.score` equals the weighted sum of the site values over
all ten sub-criteria (an absent sub-criterion contributing value 0 through
`site_values.get(sub, 0)`) divided by the sum of all ten global weights,
and equals 0 when that divisor is 0. -/
theorem C1_score_formula (m : AHPModel) (v : SubCrit → Option ℚ) :
    score m v =
      if (subPairs.map (fun p => m.sub_weights_global p.1 p.2)).sum = 0 then 0
      else
        (subPairs.map
          (fun p => (v p.2).getD 0 * m.sub_weights_global p.1 p.2)).sum /
        (subPairs.map (fun p => m.sub_weights_global p.1 p.2)).sum := by
  rw [score, scoreTotal_eq_sum, scoreMaxSum_eq_sum]

/-- One UI mutation of the weight model: a `set_main_weight` or a
`set_local_weight` call. -/
inductive WOp where
  | setMain : Crit → ℚ → WOp
  | setLocal : Crit → SubCrit → ℚ → WOp

/-- Apply one setter call to the model state. -/
def applyOp (m : AHPModel) : WOp → AHPModel
  | WOp.setMain c v => set_main_weight m c v
  | WOp.setLocal c s v => set_local_weight m c s v

/-- The freshness invariant: the stored derived table agrees with
`main * local` everywhere. -/
def GlobalConsistent (m : AHPModel) : Prop :=
  ∀ c s, m.sub_weights_global c s = m.main_weights c * m.sub_weights_local c s

/-- The constructor establishes the freshness invariant. -/
theorem globalConsistent_init : GlobalConsistent initModel :=
  fun _ _ => rfl

/-- Every setter re-establishes the freshness invariant, because both
setters rebuild the whole global table from the updated weights. -/
theorem globalConsistent_applyOp (m : AHPModel) (op : WOp) :
    GlobalConsistent (applyOp m op) := by
  cases op with
  | setMain c v => intro c' s'; rfl
  | setLocal c s v => intro c' s'; rfl

/-- The freshness invariant survives any sequence of setter calls. -/
theorem globalConsistent_foldl (ops : List WOp) (m : AHPModel)
    (h : GlobalConsistent m) : GlobalConsistent (ops.foldl applyOp m) := by
  induction ops generalizing m with
  | nil => exact h
  | cons op rest ih => exact ih (applyOp m op) (globalConsistent_applyOp m op)

/-- C7: after any sequence of `set_main_weight` / `set_local_weight` calls
starting from a fresh model, `global_weight c s` equals
`main_weights c * sub_weights_local c s` for every criterion and
sub-criterion: the derived table is rebuilt by every setter and never
stale. -/
theorem C7_global_weights_never_stale (ops : List WOp) (c : Crit)
    (s : SubCrit) :
    global_weight (ops.foldl applyOp initModel) c s =
      (ops.foldl applyOp initModel).main_weights c *
        (ops.foldl applyOp initModel).sub_weights_local c s :=
  globalConsistent_foldl ops initModel globalConsistent_init c s

/-- C8: when the three main weights sum to 1 and each criterion's local
weights sum to 1, the ten global weights `main c * local c s` sum to 1, in
particular to within the claimed `1e-9` tolerance. -/
theorem C8_global_weight_sum_one (main : Crit → ℚ) (lw : Crit → SubCrit → ℚ)
    (hmain : (criteria.map main).sum = 1)
    (hlocal : ∀ c, ((sub_criteria c).map (lw c)).sum = 1) :
    |(subPairs.map (fun p => compute_global main lw p.1 p.2)).sum - 1| ≤
      1 / 1000000000 := by
  have hT := hlocal Crit.Technical
  have hE := hlocal Crit.Environmental
  have hS := hlocal Crit.Social
  simp [sub_criteria] at hT hE hS
  simp [criteria] at hmain
  have hsum :
      (subPairs.map (fun p => compute_global main lw p.1 p.2)).sum = 1 := by
    simp [subPairs, compute_global]
    linear_combination main Crit.Technical * hT + main Crit.Environmental * hE +
      main Crit.Social * hS + hmain
  rw [hsum]
  norm_num

/-- Witness for C8: exactly normalized main weights (1/2, 3/10, 1/5) with
the default local weights, whose groups each sum to exactly 1. -/
theorem C8_global_weight_sum_one_witness :
    |(subPairs.map (fun p => compute_global
        (fun c => if c = Crit.Technical then (1 : ℚ) / 2
          else if c = Crit.Environmental then 3 / 10 else 1 / 5)
        initLocal p.1 p.2)).sum - 1| ≤ 1 / 1000000000 :=
  C8_global_weight_sum_one _ initLocal
    (by simp +decide [criteria]; norm_num)
    (by intro c; cases c <;> norm_num [sub_criteria, initLocal])

/-- C9: a site-value map that is constantly `c` scores exactly `c`
whenever the global-weight sum is nonzero; under the default weight set a
constant 1 scores 1, a constant 0 scores 0, and a constant 0.7 scores 0.7,
whose recommendation band is "Moderately Suitable" (the ≥ 0.6 band), not
"Highly Suitable", which requires a score of at least 0.8. -/
theorem C9_constant_input_score :
    (∀ (m : AHPModel) (c : ℚ), scoreMaxSum m ≠ 0 →
        score m (fun _ => some c) = c) ∧
    score initModel (fun _ => some 1) = 1 ∧
    score initModel (fun _ => some 0) = 0 ∧
    score initModel (fun _ => some 0.7) = 0.7 ∧
    score_to_text 0.7 = "Moderately Suitable" ∧
    score_to_text 0.7 ≠ "Highly Suitable" ∧
    (∀ q : ℚ, score_to_text q = "Highly Suitable" → 0.8 ≤ q) := by
  have hconst : ∀ (m : AHPModel) (c : ℚ), scoreMaxSum m ≠ 0 →
      score m (fun _ => some c) = c := by
    intro m c h
    have htot : scoreTotal m (fun _ => some c) = c * scoreMaxSum m := by
      simp [scoreTotal, scoreMaxSum, criteria, sub_criteria]
      ring
    rw [score, if_neg h, htot, mul_div_assoc, div_self h, mul_one]
  have hms : scoreMaxSum initModel ≠ 0 := by
    norm_num [scoreMaxSum, criteria, sub_criteria, initModel, compute_global,
      initMain, initLocal]
  have h78 : ¬ ((0.7 : ℚ) ≥ 0.8) := by norm_num
  have h76 : (0.7 : ℚ) ≥ 0.6 := by norm_num
  refine ⟨hconst, hconst _ 1 hms, hconst _ 0 hms, hconst _ 0.7 hms, ?_, ?_, ?_⟩
  · rw [score_to_text, if_neg h78, if_pos h76]
  · rw [score_to_text, if_neg h78, if_pos h76]
    intro h
    exact absurd h (by decide)
  · intro q hq
    by_contra hlt
    push_neg at hlt
    rw [score_to_text, if_neg (not_le.mpr hlt)] at hq
    split_ifs at hq <;> exact absurd hq (by decide)

/-- Witness for C9: the constant-0.7 map under the default weight set,
whose global-weight sum 0.96 is nonzero. -/
theorem C9_constant_input_score_witness :
    score initModel (fun _ => some 0.7) = 0.7 :=
  C9_constant_input_score.1 initModel 0.7
    (by norm_num [scoreMaxSum, criteria, sub_criteria, initModel,
      compute_global, initMain, initLocal])

/-- Running the loop through `n` consecutive in-range empty rounds
multiplies the radius by `1.7 ^ n` and adds `n` to the query count. -/
theorem overpassLoop_advance (hav : ℚ → ℚ → ℚ → ℚ → ℚ)
    (oracle : ℚ → FetchResult) (lat lon maxr : ℚ) (n : ℕ) :
    ∀ (fuel : ℕ) (rad : ℚ) (cnt : ℕ),
      (∀ k < n, rad * 1.7 ^ k ≤ maxr ∧
        oracle (rad * 1.7 ^ k) = FetchResult.ok []) →
      overpassLoop hav oracle lat lon maxr (n + fuel) rad cnt =
        overpassLoop hav oracle lat lon maxr fuel (rad * 1.7 ^ n) (cnt + n) := by
  induction n with
  | zero =>
      intro fuel rad cnt _
      simp
  | succ k ih =>
      intro fuel rad cnt h
      have h0 := h 0 (Nat.succ_pos k)
      rw [pow_zero, mul_one] at h0
      have hstep : k + 1 + fuel = (k + fuel) + 1 := by omega
      rw [hstep]
      simp only [overpassLoop, if_pos h0.1, h0.2, List.isEmpty_nil, if_true]
      have h' : ∀ j < k, rad * 1.7 * 1.7 ^ j ≤ maxr ∧
          oracle (rad * 1.7 * 1.7 ^ j) = FetchResult.ok [] := by
        intro j hj
        have hh := h (j + 1) (by omega)
        have heq : rad * 1.7 ^ (j + 1) = rad * 1.7 * 1.7 ^ j := by ring
        rwa [heq] at hh
      rw [ih fuel (rad * 1.7) (cnt + 1) h']
      have e1 : rad * 1.7 * 1.7 ^ k = rad * 1.7 ^ (k + 1) := by ring
      have e2 : cnt + 1 + k = cnt + (k + 1) := by omega
      rw [e1, e2]

/-- C2: when every bounding-box query comes back empty, the resolver
widens the radius by the factor 1.7 after each round and returns Unknown
once the radius passes `maxRadiusKm`; the number of queries issued is
exactly the number `n` of radii `start * 1.7 ^ k` that are still within
`maxRadiusKm`, characterised by the final equivalence. -/
theorem C2_resolver_empty_growth (hav : ℚ → ℚ → ℚ → ℚ → ℚ)
    (oracle : ℚ → FetchResult) (lat lon : ℚ) (key : String)
    (start maxr : ℚ) (n f : ℕ)
    (hkey : key ∈ osmQueryKeys) (hstart : 0 < start)
    (hempty : ∀ r, oracle r = FetchResult.ok [])
    (hle : ∀ k < n, start * 1.7 ^ k ≤ maxr)
    (hgt : maxr < start * 1.7 ^ n) :
    overpass_nearest_distance_km hav oracle lat lon key start maxr
        (n + (f + 1)) = some (none, n) ∧
    (∀ k, start * 1.7 ^ k ≤ maxr ↔ k < n) := by
  constructor
  · rw [overpass_nearest_distance_km, if_pos hkey,
      overpassLoop_advance hav oracle lat lon maxr n (f + 1) start 0
        (fun k hk => ⟨hle k hk, hempty _⟩)]
    simp only [overpassLoop, if_neg (not_le.mpr hgt), Nat.zero_add]
  · intro k
    constructor
    · intro hk
      by_contra hnk
      push_neg at hnk
      have hmono : start * 1.7 ^ n ≤ start * 1.7 ^ k :=
        mul_le_mul_of_nonneg_left
          (pow_le_pow_right (by norm_num) hnk) hstart.le
      linarith
    · exact hle k

/-- Witness for C2 at the source defaults: start radius 20 km, cap 60 km,
an always-empty data source; the three radii 20, 34, 57.8 are queried and
the run returns Unknown after exactly 3 queries. -/
theorem C2_resolver_empty_growth_witness :
    overpass_nearest_distance_km (fun _ _ _ _ => 0)
        (fun _ => FetchResult.ok []) 0 0 "roads" 20 60 4 = some (none, 3) :=
  (C2_resolver_empty_growth (fun _ _ _ _ => 0) (fun _ => FetchResult.ok [])
      0 0 "roads" 20 60 3 0 (by simp [osmQueryKeys]) (by norm_num)
      (fun _ => rfl)
      (by intro k hk; interval_cases k <;> norm_num) (by norm_num)).1

/-- C5: a transport or parse failure at any iteration makes the resolver
return Unknown at once — the query count stops at the failing query,
however much fuel remains — and the failure is absorbed into the returned
value rather than escaping the function. -/
theorem C5_resolver_error_unknown (hav : ℚ → ℚ → ℚ → ℚ → ℚ)
    (oracle : ℚ → FetchResult) (lat lon : ℚ) (key : String)
    (start maxr : ℚ) (n f : ℕ)
    (hkey : key ∈ osmQueryKeys)
    (hpre : ∀ k < n, start * 1.7 ^ k ≤ maxr ∧
      oracle (start * 1.7 ^ k) = FetchResult.ok [])
    (hrad : start * 1.7 ^ n ≤ maxr)
    (hfail : oracle (start * 1.7 ^ n) = FetchResult.fail) :
    overpass_nearest_distance_km hav oracle lat lon key start maxr
        (n + (f + 1)) = some (none, n + 1) := by
  rw [overpass_nearest_distance_km, if_pos hkey,
    overpassLoop_advance hav oracle lat lon maxr n (f + 1) start 0 hpre]
  simp only [overpassLoop, if_pos hrad, hfail, Nat.zero_add]

/-- Witness for C5: the very first query fails; one query is issued and
the result is Unknown. -/
theorem C5_resolver_error_unknown_witness :
    overpass_nearest_distance_km (fun _ _ _ _ => 0)
        (fun _ => FetchResult.fail) 0 0 "roads" 20 60 1 = some (none, 1) :=
  C5_resolver_error_unknown (fun _ _ _ _ => 0) (fun _ => FetchResult.fail)
    0 0 "roads" 20 60 0 0 (by simp [osmQueryKeys])
    (by intro k hk; omega) (by norm_num) rfl

/-- With a positive radius, once `rad * 1.7 ^ n` passes the cap, `n + 1`
iterations of fuel suffice for the loop to return, whatever the data
source does. -/
theorem overpassLoop_terminates (hav : ℚ → ℚ → ℚ → ℚ → ℚ)
    (oracle : ℚ → FetchResult) (lat lon maxr : ℚ) :
    ∀ (n : ℕ) (rad : ℚ) (cnt : ℕ), 0 < rad → maxr < rad * 1.7 ^ n →
      ∃ res, overpassLoop hav oracle lat lon maxr (n + 1) rad cnt =
        some res := by
  intro n
  induction n with
  | zero =>
      intro rad cnt _ hm
      rw [pow_zero, mul_one] at hm
      exact ⟨(none, cnt), by simp only [overpassLoop, if_neg (not_le.mpr hm)]⟩
  | succ k ih =>
      intro rad cnt hr hm
      by_cases hle : rad ≤ maxr
      · cases hor : oracle rad with
        | fail =>
            exact ⟨(none, cnt + 1),
              by simp only [overpassLoop, if_pos hle, hor]⟩
        | ok elems =>
            cases helems : elems with
            | nil =>
                have hm' : maxr < rad * 1.7 * 1.7 ^ k := by
                  have : rad * 1.7 ^ (k + 1) = rad * 1.7 * 1.7 ^ k := by ring
                  linarith [this ▸ hm]
                obtain ⟨res, hres⟩ := ih (rad * 1.7) (cnt + 1)
                  (by positivity) hm'
                refine ⟨res, ?_⟩
                simp only [overpassLoop, if_pos hle, hor, helems,
                  List.isEmpty_nil, if_true]
                exact hres
            | cons e rest =>
                refine ⟨(foldMin (elemDist hav lat lon) (e :: rest) none,
                    cnt + 1), ?_⟩
                simp [overpassLoop, hle, hor, helems]
      · exact ⟨(none, cnt), by simp only [overpassLoop, if_neg hle]⟩

/-- With a zero start radius and an always-empty data source, the radius
never grows and the loop never returns, whatever the fuel. -/
theorem overpassLoop_zero_radius_diverges (hav : ℚ → ℚ → ℚ → ℚ → ℚ)
    (lat lon : ℚ) :
    ∀ (fuel cnt : ℕ),
      overpassLoop hav (fun _ => FetchResult.ok []) lat lon 60 fuel 0 cnt =
        none := by
  intro fuel
  induction fuel with
  | zero => intro cnt; rfl
  | succ k ih =>
      intro cnt
      have h060 : (0 : ℚ) ≤ 60 := by norm_num
      simp only [overpassLoop, if_pos h060, List.isEmpty_nil, if_true,
        zero_mul]
      exact ih (cnt + 1)

/-- C10: for every positive start radius the expanding-radius loop
terminates — some finite fuel makes it return — against every data
source; and the positivity is necessary: with start radius 0 and an
always-empty source the loop never returns, for any amount of fuel. -/
theorem C10_resolver_termination :
    (∀ (hav : ℚ → ℚ → ℚ → ℚ → ℚ) (oracle : ℚ → FetchResult)
        (lat lon : ℚ) (key : String) (start maxr : ℚ), 0 < start →
        ∃ (fuel : ℕ) (res : Option ℚ × ℕ),
          overpass_nearest_distance_km hav oracle lat lon key start maxr
            fuel = some res) ∧
    (∀ (hav : ℚ → ℚ → ℚ → ℚ → ℚ) (lat lon : ℚ) (key : String) (fuel : ℕ),
        key ∈ osmQueryKeys →
        overpass_nearest_distance_km hav (fun _ => FetchResult.ok []) lat lon
          key 0 60 fuel = none) := by
  constructor
  · intro hav oracle lat lon key start maxr hstart
    by_cases hkey : key ∈ osmQueryKeys
    · obtain ⟨n, hn⟩ :=
        pow_unbounded_of_one_lt (maxr / start) (by norm_num : (1 : ℚ) < 1.7)
      have hm : maxr < start * 1.7 ^ n := by
        rw [div_lt_iff hstart] at hn
        linarith
      obtain ⟨res, hres⟩ :=
        overpassLoop_terminates hav oracle lat lon maxr n start 0 hstart hm
      refine ⟨n + 1, res, ?_⟩
      rw [overpass_nearest_distance_km, if_pos hkey]
      exact hres
    · refine ⟨0, (none, 0), ?_⟩
      rw [overpass_nearest_distance_km, if_neg hkey]
  · intro hav lat lon key fuel hkey
    rw [overpass_nearest_distance_km, if_pos hkey]
    exact overpassLoop_zero_radius_diverges hav lat lon fuel 0

/-- Witness for C10: termination at the defaults (start 20, cap 60), and
divergence when the start radius is 0. -/
theorem C10_resolver_termination_witness :
    (∃ (fuel : ℕ) (res : Option ℚ × ℕ),
      overpass_nearest_distance_km (fun _ _ _ _ => 0)
        (fun _ => FetchResult.ok []) 0 0 "roads" 20 60 fuel = some res) ∧
    overpass_nearest_distance_km (fun _ _ _ _ => 0)
      (fun _ => FetchResult.ok []) 0 0 "roads" 0 60 5 = none :=
  ⟨C10_resolver_termination.1 (fun _ _ _ _ => 0) (fun _ => FetchResult.ok [])
      0 0 "roads" 20 60 (by norm_num),
   C10_resolver_termination.2 (fun _ _ _ _ => 0) 0 0 "roads" 5
      (by simp [osmQueryKeys])⟩
